import Mathlib

/-!
Verification of the beancounters transaction-categorization and
ledger-entry-synthesis engine.

The repository's own code (`src/beancounters/importers.py`) declares the
importer configurations; the categorization core (pattern matcher, ledger
entry builder, extraction) lives in the external `beancount_no_*` packages
and is modelled here from the specification.  Amounts are carried as exact
rationals, mirroring the spec's demand for exact decimal arithmetic.
-/

namespace Beancounters

/-- Modelled from the spec: the kind of a matching rule atom (spec section 3,
`match_kind`); the matcher implementation is external to the repository. -/
inductive MatchKind where
  | narrationSubstring : MatchKind
  | narrationRegex : MatchKind
  | counterpartyAccount : MatchKind
deriving DecidableEq

/-- Modelled from the spec: a Pattern as configured (spec section 3); the
Pattern data model lives in the external importer packages. -/
structure PatternSpec where
  target_account : String
  match_kind : MatchKind
  match_value : String
  case_insensitive : Bool

/-- Modelled from the spec: a minimal regular-expression abstract syntax
covering the constructs the configuration uses (literal characters, the
whitespace class, Kleene star); the real engine is Python `re`, external to
the repository. -/
inductive Regex where
  | fail : Regex
  | eps : Regex
  | char (c : Char) : Regex
  | cls (p : Char → Bool) : Regex
  | cat (r1 r2 : Regex) : Regex
  | alt (r1 r2 : Regex) : Regex
  | star (r : Regex) : Regex

/-- Whether a regular expression accepts the empty string. -/
def Regex.nullable : Regex → Bool
  | .fail => false
  | .eps => true
  | .char _ => false
  | .cls _ => false
  | .cat r1 r2 => r1.nullable && r2.nullable
  | .alt r1 r2 => r1.nullable || r2.nullable
  | .star _ => true

/-- Brzozowski derivative of a regular expression by one character. -/
def Regex.deriv : Regex → Char → Regex
  | .fail, _ => .fail
  | .eps, _ => .fail
  | .char c, a => if a = c then .eps else .fail
  | .cls p, a => if p a then .eps else .fail
  | .cat r1 r2, a =>
      if r1.nullable then .alt (.cat (r1.deriv a) r2) (r2.deriv a)
      else .cat (r1.deriv a) r2
  | .alt r1 r2, a => .alt (r1.deriv a) (r2.deriv a)
  | .star r, a => .cat (r.deriv a) (.star r)

/-- Whether some prefix of the character list is accepted by the regular
expression. -/
def Regex.startMatch (r : Regex) : List Char → Bool
  | [] => r.nullable
  | c :: t => r.nullable || (r.deriv c).startMatch t

/-- Modelled from the spec: whether the compiled pattern finds a match
anywhere in the character list, mirroring the external engine's search
behaviour (spec section 4.1, `narration_regex`). -/
def Regex.search (r : Regex) : List Char → Bool
  | [] => r.nullable
  | c :: t => r.startMatch (c :: t) || r.search t

/-- The whitespace characters matched by the regex class written `\s`. -/
def isSpaceChar (c : Char) : Bool :=
  c = ' ' || c = Char.ofNat 9 || c = Char.ofNat 10 || c = Char.ofNat 13 ||
    c = Char.ofNat 11 || c = Char.ofNat 12

/-- Modelled from the spec: translation of a regex source text into the
abstract syntax, accumulating atoms in reverse; returns `none` on a
syntactically invalid source (dangling escape, unsupported escape, or a
star with nothing to repeat). -/
def compileAux : List Char → List Regex → Option (List Regex)
  | [], acc => some acc
  | c :: rest, acc =>
    if c = '\\' then
      match rest with
      | [] => none
      | d :: rest2 =>
        if d = 's' then compileAux rest2 (Regex.cls isSpaceChar :: acc)
        else if d = '\\' then compileAux rest2 (Regex.char '\\' :: acc)
        else none
    else if c = '*' then
      match acc with
      | [] => none
      | a :: prev => compileAux rest (Regex.star a :: prev)
    else compileAux rest (Regex.char c :: acc)

/-- Modelled from the spec: compiling a `match_value` treated as a regular
expression; `none` signals a syntactically invalid regular expression
(spec sections 4.1 and 7). -/
def compileRegex (s : String) : Option Regex :=
  (compileAux s.data []).map (fun atoms => atoms.reverse.foldl Regex.cat Regex.eps)

/-- The compiled form of the regex source `REMA\s*1000` used by the
configuration in `importers.py`. -/
def remaRegex : Regex :=
  ((((((((Regex.eps.cat (.char 'R')).cat (.char 'E')).cat (.char 'M')).cat
    (.char 'A')).cat (.star (.cls isSpaceChar))).cat (.char '1')).cat
    (.char '0')).cat (.char '0')).cat (.char '0')

/-- Modelled from the spec: the condition of a Pattern after Rule Set
construction; a regex kind carries its compiled pattern so no compilation
(and no configuration error) can occur at match time (spec section 4.1). -/
inductive CompiledCond where
  | substr (value : String) (ci : Bool) : CompiledCond
  | regex (r : Regex) : CompiledCond
  | counterparty (value : String) : CompiledCond

/-- Modelled from the spec: a Pattern of a constructed Rule Set. -/
structure CompiledPattern where
  target_account : String
  cond : CompiledCond

/-- Modelled from the spec: a configuration error surfaced at Rule Set
construction time (spec section 7). -/
inductive ConfigError where
  | badRegex (value : String) : ConfigError

/-- Modelled from the spec: construction of one Rule Set entry; a malformed
regular expression fails fast with a `ConfigError` (spec section 7). -/
def compilePattern (p : PatternSpec) : Except ConfigError CompiledPattern :=
  match p.match_kind with
  | .narrationSubstring => .ok ⟨p.target_account, .substr p.match_value p.case_insensitive⟩
  | .counterpartyAccount => .ok ⟨p.target_account, .counterparty p.match_value⟩
  | .narrationRegex =>
    match compileRegex p.match_value with
    | some r => .ok ⟨p.target_account, .regex r⟩
    | none => .error (.badRegex p.match_value)

/-- Modelled from the spec: Rule Set construction, compiling every Pattern
and failing fast on the first configuration error (spec section 7). -/
def buildRuleSet : List PatternSpec → Except ConfigError (List CompiledPattern)
  | [] => .ok []
  | p :: rest =>
    match compilePattern p with
    | .error e => .error e
    | .ok cp =>
      match buildRuleSet rest with
      | .error e => .error e
      | .ok cps => .ok (cp :: cps)

/-- Whether `n` occurs as a contiguous sublist of `h`. -/
def isSubstr : List Char → List Char → Bool
  | n, [] => n.isEmpty
  | n, c :: t => n.isPrefixOf (c :: t) || isSubstr n t

/-- Lowercase every character of a string. -/
def lowerStr (s : String) : String :=
  String.mk (s.data.map Char.toLower)

/-- Modelled from the spec: a validated Raw Transaction as the core consumes
it (spec section 3); dates are abstracted to numeric identifiers. -/
structure Txn where
  date : Nat
  narration : String
  amount : Rat
  currency : String
  counterparty : Option String
  payee : Option String
deriving DecidableEq

/-- Modelled from the spec: a raw record as produced by an external
file-format adapter, whose required fields may be missing (spec section 7,
`MalformedTransaction`); `balanceForward` marks a balance-forward record of
a credit-card statement. -/
structure RawRecord where
  date : Option Nat
  narration : String
  amount : Option Rat
  currency : String
  counterparty : Option String
  payee : Option String
  balanceForward : Bool
deriving DecidableEq

/-- Modelled from the spec: the per-record error for a Raw Transaction
missing a required field (spec section 7). -/
inductive BuildError where
  | missingDate : BuildError
  | missingAmount : BuildError
deriving DecidableEq

/-- Modelled from the spec: validation of a raw record; a record missing its
date or amount fails construction for that single record only (spec
section 7). -/
def validate (r : RawRecord) : Except BuildError Txn :=
  match r.date with
  | none => .error .missingDate
  | some d =>
    match r.amount with
    | none => .error .missingAmount
    | some a => .ok ⟨d, r.narration, a, r.currency, r.counterparty, r.payee⟩

/-- Modelled from the spec: evaluation of one Pattern condition against a
transaction (spec section 4.1).  Substring matching lowercases both sides
when `case_insensitive` is set; counterparty matching is exact string
equality on the optional counterparty account. -/
def condMatches : CompiledCond → Txn → Bool
  | .substr v ci, t =>
      if ci then isSubstr (lowerStr v).data (lowerStr t.narration).data
      else isSubstr v.data t.narration.data
  | .regex r, t => r.search t.narration.data
  | .counterparty v, t => t.counterparty == some v

/-- Modelled from the spec: the Matcher (spec section 4.1) — evaluate the
Rule Set in order and return the first matching Pattern's target account,
falling back to the default. -/
def resolve (t : Txn) : List CompiledPattern → String → String
  | [], d => d
  | p :: rest, d => if condMatches p.cond t then p.target_account else resolve t rest d

/-- Modelled from the spec: sign-aware resolution for deposit-style sources
(spec section 4.2) — when no pattern matches, a negative native amount
falls back to the expense default and a non-negative one to the income
default. -/
def resolveDeposit (t : Txn) (rs : List CompiledPattern)
    (defaultExpense defaultIncome : String) : String :=
  resolve t rs (if t.amount < 0 then defaultExpense else defaultIncome)

/-- Modelled from the spec: resolution for credit-card-style sources, which
use a single default account regardless of sign (spec section 4.2). -/
def resolveCard (t : Txn) (rs : List CompiledPattern) (defaultAccount : String) : String :=
  resolve t rs defaultAccount

/-- Modelled from the spec: the counterparty mapping table is transformed
into Patterns at configuration build time, one Pattern per mapping entry
(spec section 4.4). -/
def counterpartyPatterns (m : List (String × String)) : List CompiledPattern :=
  m.map (fun e => ⟨e.2, .counterparty e.1⟩)

/-- One account/amount line of a Ledger Entry (spec section 3). -/
structure Posting where
  account : String
  amount : Rat
  currency : String
deriving DecidableEq

/-- A complete double-entry Ledger Entry (spec section 3). -/
structure LedgerEntry where
  date : Nat
  flag : Char
  payee : Option String
  narration : String
  postings : List Posting
deriving DecidableEq

/-- Modelled from the spec: the Ledger Entry Builder (spec section 4.3) —
primary posting first carrying the native signed amount, category posting
second carrying its exact negation, both in the transaction's currency. -/
def buildEntry (t : Txn) (primary category : String) (flag : Char) : LedgerEntry :=
  ⟨t.date, flag, t.payee, t.narration,
    [⟨primary, t.amount, t.currency⟩, ⟨category, -t.amount, t.currency⟩]⟩

/-- The exact sum of the posting amounts carried in a given currency. -/
def sumPostings (cur : String) (ps : List Posting) : Rat :=
  ((ps.filter (fun p => p.currency == cur)).map Posting.amount).sum

/-- Modelled from the spec: processing of one raw record for a deposit-style
source — validate, resolve the category, build the balanced entry. -/
def processRecord (rs : List CompiledPattern)
    (defaultExpense defaultIncome primary : String) (flag : Char)
    (r : RawRecord) : Except BuildError LedgerEntry :=
  match validate r with
  | .error e => .error e
  | .ok t => .ok (buildEntry t primary (resolveDeposit t rs defaultExpense defaultIncome) flag)

/-- Modelled from the spec: batch processing collecting successes and
failures independently (spec section 7, partial-failure batch contract). -/
def processBatch (rs : List CompiledPattern)
    (defaultExpense defaultIncome primary : String) (flag : Char) :
    List RawRecord → List LedgerEntry × List (RawRecord × BuildError)
  | [] => ([], [])
  | r :: rest =>
    let prev := processBatch rs defaultExpense defaultIncome primary flag rest
    match processRecord rs defaultExpense defaultIncome primary flag r with
    | .ok e => (e :: prev.1, prev.2)
    | .error err => (prev.1, (r, err) :: prev.2)

/-- A declarative pattern rule as built by the fluent `match(...)` chain in
`importers.py`; the attribute names mirror the configured pattern objects
(`narration`, `regex`, `case_insensitive`, `account`, and `to_account` for
field-based rules). -/
structure SourcePattern where
  narration : Option String
  to_account : Option String
  regex : Bool
  case_insensitive : Bool
  account : String
deriving DecidableEq

/-- `match(v) >> acct` from `importers.py`: a case-sensitive narration
substring rule. -/
def substrPat (v acct : String) : SourcePattern :=
  ⟨some v, none, false, false, acct⟩

/-- `match(v).regex >> acct` from `importers.py`: a narration regex rule. -/
def regexPat (v acct : String) : SourcePattern :=
  ⟨some v, none, true, false, acct⟩

/-- `match(v).ignorecase >> acct` from `importers.py`: a case-insensitive
narration substring rule. -/
def noCasePat (v acct : String) : SourcePattern :=
  ⟨some v, none, false, true, acct⟩

/-- `field(to_account=v) >> acct` from `importers.py`: a field-based rule on
the transfer's destination account number. -/
def fieldPat (v acct : String) : SourcePattern :=
  ⟨none, some v, false, false, acct⟩

/-- The `Sparebank1AccountConfig` constructor arguments of `importers.py`. -/
structure Sparebank1AccountConfig where
  primary_account_number : String
  account_name : String
  currency : String
  other_account_mappings : List (String × String)
  transaction_patterns : List SourcePattern
  default_expense_account : String
  default_income_account : String
deriving DecidableEq

/-- The `DnbMastercardConfig` constructor arguments of `importers.py`. -/
structure DnbMastercardConfig where
  account_name : String
  currency : String
  transaction_patterns : List SourcePattern
  default_account : String
  skip_balance_forward : Bool
deriving DecidableEq

/-- The `AmexAccountConfig` constructor arguments of `importers.py`; the
source passes no balance-forward flag for this importer. -/
structure AmexAccountConfig where
  account_name : String
  currency : String
  transaction_patterns : List SourcePattern
  default_account : String
deriving DecidableEq

/-- The SpareBank 1 checking-account configuration built in
`get_importers` (importers.py lines 33-72). -/
def sparebank1Config : Sparebank1AccountConfig :=
  { primary_account_number := "12345678901"
    account_name := "Assets:Bank:SpareBank1:Checking"
    currency := "NOK"
    other_account_mappings :=
      [("11112222333", "Assets:Bank:SpareBank1:Savings"),
       ("56712345678", "Income:Salary")]
    transaction_patterns :=
      [substrPat "KIWI" "Expenses:Groceries",
       substrPat "MENY" "Expenses:Groceries",
       substrPat "COOP" "Expenses:Groceries",
       regexPat "REMA\\s*1000" "Expenses:Groceries",
       substrPat "RUTER" "Expenses:Transport:Public",
       substrPat "STATOIL" "Expenses:Transport:Fuel",
       substrPat "SPOTIFY" "Expenses:Subscriptions:Music",
       substrPat "NETFLIX" "Expenses:Subscriptions:Streaming",
       substrPat "GET/TELIA" "Expenses:Subscriptions:Internet",
       substrPat "POWER" "Expenses:Shopping:Electronics",
       substrPat "XXL" "Expenses:Shopping:Sports",
       substrPat "VINMONOPOLET" "Expenses:Alcohol",
       substrPat "FINN.NO" "Expenses:Services",
       substrPat "HUSLEIE" "Expenses:Housing:Rent",
       substrPat "SAS" "Expenses:Travel:Flights",
       substrPat "SKATTEETATEN" "Income:TaxRefund",
       fieldPat "11112222333" "Assets:Bank:SpareBank1:Savings"]
    default_expense_account := "Expenses:Uncategorized"
    default_income_account := "Income:Other" }

/-- The DNB Mastercard configuration built in `get_importers`
(importers.py lines 74-100). -/
def dnbConfig : DnbMastercardConfig :=
  { account_name := "Liabilities:CreditCard:DNB"
    currency := "NOK"
    transaction_patterns :=
      [substrPat "KIWI" "Expenses:Groceries",
       substrPat "MENY" "Expenses:Groceries",
       substrPat "COOP" "Expenses:Groceries",
       regexPat "REMA\\s*1000" "Expenses:Groceries",
       substrPat "SPOTIFY" "Expenses:Subscriptions:Music",
       substrPat "NETFLIX" "Expenses:Subscriptions:Streaming",
       substrPat "GITHUB" "Expenses:Subscriptions:Dev",
       noCasePat "STARBUCKS" "Expenses:Coffee",
       substrPat "POWER" "Expenses:Shopping:Electronics",
       substrPat "XXL" "Expenses:Shopping:Sports",
       substrPat "VINMONOPOLET" "Expenses:Alcohol",
       substrPat "SAS" "Expenses:Travel:Flights"]
    default_account := "Expenses:Uncategorized"
    skip_balance_forward := true }

/-- The American Express configuration built in `get_importers`
(importers.py lines 102-126). -/
def amexConfig : AmexAccountConfig :=
  { account_name := "Liabilities:CreditCard:Amex"
    currency := "NOK"
    transaction_patterns :=
      [substrPat "KIWI" "Expenses:Groceries",
       substrPat "MENY" "Expenses:Groceries",
       regexPat "REMA\\s*1000" "Expenses:Groceries",
       substrPat "SPOTIFY" "Expenses:Subscriptions:Music",
       substrPat "NETFLIX" "Expenses:Subscriptions:Streaming",
       substrPat "GITHUB" "Expenses:Subscriptions:Dev",
       noCasePat "STARBUCKS" "Expenses:Coffee",
       substrPat "ELKJOP" "Expenses:Shopping:Electronics",
       substrPat "H&M" "Expenses:Shopping:Clothing",
       substrPat "VINMONOPOLET" "Expenses:Alcohol",
       substrPat "SAS" "Expenses:Travel:Flights"]
    default_account := "Expenses:Uncategorized" }

/-- One configured importer, as returned by `get_importers`. -/
inductive Importer where
  | depositAccount (cfg : Sparebank1AccountConfig) : Importer
  | dnbMastercard (cfg : DnbMastercardConfig) : Importer
  | amex (cfg : AmexAccountConfig) : Importer
deriving DecidableEq

/-- `get_importers` from `importers.py` (lines 29-127): builds the list of
the three configured importers afresh on every call; the `Unit` argument
models the call. -/
def getImporters (_ : Unit) : List Importer :=
  [Importer.depositAccount sparebank1Config,
   Importer.dnbMastercard dnbConfig,
   Importer.amex amexConfig]

/-- Whether an importer is configured to skip balance-forward records; only
the DNB configuration carries such a flag, the other constructors accept
none. -/
def importerSkipsBalanceForward : Importer → Bool
  | .dnbMastercard cfg => cfg.skip_balance_forward
  | .depositAccount _ => false
  | .amex _ => false

/-- Modelled from the spec: the external extraction step keeps every
transaction record unless the importer is configured to skip
balance-forward records, in which case exactly those are excluded. -/
def extractRecords (skipBF : Bool) (records : List RawRecord) : List RawRecord :=
  if skipBF then records.filter (fun r => !r.balanceForward) else records

/-- Modelled from the spec: record extraction of one configured importer. -/
def importerExtract (i : Importer) (records : List RawRecord) : List RawRecord :=
  extractRecords (importerSkipsBalanceForward i) records

/-- A transaction with the given narration and otherwise neutral fields,
used to state concrete matching scenarios. -/
def txnWithNarration (n : String) : Txn :=
  ⟨0, n, 0, "NOK", none, none⟩

/-- A grocery transaction from the spec's test scenario. -/
def kiwiTxn : Txn :=
  ⟨20250105, "KIWI MAT OSLO", -99, "NOK", none, none⟩

/-- An uncategorizable transaction from the spec's test scenario. -/
def unknownTxn : Txn :=
  ⟨20250106, "UNKNOWN MERCHANT", -99, "NOK", none, none⟩

/-- The compiled `KIWI` substring Pattern of the configuration. -/
def kiwiPat : CompiledPattern :=
  ⟨"Expenses:Groceries", .substr "KIWI" false⟩

/-- A later compiled Pattern that also matches the sample transaction. -/
def osloPat : CompiledPattern :=
  ⟨"Expenses:Shopping", .substr "OSLO" false⟩

/-- A Pattern spec whose regex source is syntactically invalid (a star with
nothing to repeat). -/
def badRegexSpec : PatternSpec :=
  ⟨"Expenses:Misc", .narrationRegex, "*", false⟩

/-- A well-formed raw record for the builder scenarios. -/
def sampleTxnRecord : RawRecord :=
  ⟨some 20250115, "KIWI MAT OSLO", some (-99), "NOK", none, none, false⟩

/-- A well-formed raw record preceding the malformed one in a batch. -/
def goodRec1 : RawRecord :=
  ⟨some 20250101, "KIWI OSLO", some (-10), "NOK", none, none, false⟩

/-- A raw record missing its date. -/
def badRec : RawRecord :=
  ⟨none, "BROKEN RECORD", some 5, "NOK", none, none, false⟩

/-- A well-formed raw record following the malformed one in a batch. -/
def goodRec2 : RawRecord :=
  ⟨some 20250102, "MENY OSLO", some 7, "NOK", none, none, false⟩

/-- A balance-forward record of a credit-card statement. -/
def bfRec : RawRecord :=
  ⟨none, "OVERFOERT FRA FORRIGE FAKTURA", none, "NOK", none, none, true⟩

/-- An ordinary transaction record of a credit-card statement. -/
def normalRec : RawRecord :=
  ⟨some 20250110, "KIWI OSLO", none, "NOK", none, none, false⟩

/-- `isSubstr` decides exactly occurrence as a contiguous sublist. -/
theorem isSubstr_iff (v n : List Char) :
    isSubstr v n = true ↔ ∃ p s, p ++ v ++ s = n := by
  induction n with
  | nil =>
    constructor
    · intro h
      have hv : v = [] := by simpa [isSubstr, List.isEmpty_iff] using h
      exact ⟨[], [], by simp [hv]⟩
    · rintro ⟨p, s, h⟩
      simp only [List.append_eq_nil] at h
      simp [isSubstr, h.1.2]
  | cons c t ih =>
    constructor
    · intro h
      have h2 : v.isPrefixOf (c :: t) = true ∨ isSubstr v t = true := by
        simpa [isSubstr, Bool.or_eq_true] using h
      rcases h2 with h2 | h2
      · obtain ⟨s, hs⟩ := List.isPrefixOf_iff_prefix.mp h2
        exact ⟨[], s, by simpa using hs⟩
      · obtain ⟨p, s, hps⟩ := ih.mp h2
        exact ⟨c :: p, s, by simp [hps]⟩
    · rintro ⟨p, s, hps⟩
      cases p with
      | nil =>
        have hpre : v <+: c :: t := ⟨s, by simpa using hps⟩
        have hb : v.isPrefixOf (c :: t) = true := List.isPrefixOf_iff_prefix.mpr hpre
        simp [isSubstr, hb]
      | cons a p2 =>
        have ha : a = c ∧ p2 ++ v ++ s = t := by simpa using hps
        have hs : isSubstr v t = true := ih.mpr ⟨p2, s, ha.2⟩
        simp [isSubstr, hs]

/-- When no Pattern in the Rule Set matches, `resolve` returns the default. -/
theorem resolve_of_no_match (t : Txn) (rs : List CompiledPattern) (d : String)
    (h : ∀ p ∈ rs, condMatches p.cond t = false) : resolve t rs d = d := by
  induction rs with
  | nil => rfl
  | cons p rest ih =>
    have hp := h p (List.mem_cons_self p rest)
    simp only [resolve, hp, Bool.false_eq_true, if_false]
    exact ih (fun q hq => h q (List.mem_cons_of_mem p hq))

/-- A non-matching front segment of the Rule Set does not affect resolution. -/
theorem resolve_append_no_match (t : Txn) (l1 l2 : List CompiledPattern) (d : String)
    (h : ∀ p ∈ l1, condMatches p.cond t = false) :
    resolve t (l1 ++ l2) d = resolve t l2 d := by
  induction l1 with
  | nil => rfl
  | cons p rest ih =>
    have hp := h p (List.mem_cons_self p rest)
    simp only [List.cons_append, resolve, hp, Bool.false_eq_true, if_false]
    exact ih (fun q hq => h q (List.mem_cons_of_mem p hq))

/-- `resolve` always returns the default or the target of some Rule Set
entry; it has no other outcome. -/
theorem resolve_mem_or_default (t : Txn) (rs : List CompiledPattern) (d : String) :
    resolve t rs d = d ∨ ∃ p ∈ rs, resolve t rs d = p.target_account := by
  induction rs with
  | nil => exact Or.inl rfl
  | cons p rest ih =>
    by_cases hp : condMatches p.cond t = true
    · exact Or.inr ⟨p, List.mem_cons_self p rest, by simp [resolve, hp]⟩
    · have hp2 : condMatches p.cond t = false := by simpa using hp
      have hstep : resolve t (p :: rest) d = resolve t rest d := by
        simp [resolve, hp2]
      rcases ih with h | ⟨q, hq, hres⟩
      · exact Or.inl (by rw [hstep, h])
      · exact Or.inr ⟨q, List.mem_cons_of_mem p hq, by rw [hstep, hres]⟩

/-- `compilePattern` fails exactly on a regex Pattern whose value does not
compile. -/
theorem compilePattern_error_iff (p : PatternSpec) :
    (∃ e, compilePattern p = Except.error e) ↔
      (p.match_kind = MatchKind.narrationRegex ∧ compileRegex p.match_value = none) := by
  cases hk : p.match_kind with
  | narrationSubstring => simp [compilePattern, hk]
  | counterpartyAccount => simp [compilePattern, hk]
  | narrationRegex =>
    cases hc : compileRegex p.match_value with
    | some r => simp [compilePattern, hk, hc]
    | none => simp [compilePattern, hk, hc]

/-- `buildRuleSet` fails exactly when some regex Pattern's value does not
compile. -/
theorem buildRuleSet_error_iff (specs : List PatternSpec) :
    (∃ e, buildRuleSet specs = Except.error e) ↔
      ∃ p ∈ specs, p.match_kind = MatchKind.narrationRegex ∧
        compileRegex p.match_value = none := by
  induction specs with
  | nil => simp [buildRuleSet]
  | cons p rest ih =>
    constructor
    · rintro ⟨e, he⟩
      cases hc : compilePattern p with
      | error e2 =>
        exact ⟨p, List.mem_cons_self p rest, (compilePattern_error_iff p).mp ⟨e2, hc⟩⟩
      | ok cp =>
        cases hb : buildRuleSet rest with
        | error e3 =>
          obtain ⟨q, hq, hql⟩ := ih.mp ⟨e3, hb⟩
          exact ⟨q, List.mem_cons_of_mem p hq, hql⟩
        | ok cps => simp [buildRuleSet, hc, hb] at he
    · rintro ⟨q, hq, hkind, hcomp⟩
      rcases List.mem_cons.mp hq with rfl | hq2
      · obtain ⟨e, he⟩ := (compilePattern_error_iff q).mpr ⟨hkind, hcomp⟩
        exact ⟨e, by simp [buildRuleSet, he]⟩
      · obtain ⟨e, he⟩ := ih.mpr ⟨q, hq2, hkind, hcomp⟩
        cases hc : compilePattern p with
        | error e2 => exact ⟨e2, by simp [buildRuleSet, hc]⟩
        | ok cp => exact ⟨e, by simp [buildRuleSet, hc, he]⟩

/-- Batch processing distributes over list append, preserving order. -/
theorem processBatch_append (rs : List CompiledPattern)
    (dE dI primary : String) (fl : Char) (xs ys : List RawRecord) :
    processBatch rs dE dI primary fl (xs ++ ys)
      = ((processBatch rs dE dI primary fl xs).1
           ++ (processBatch rs dE dI primary fl ys).1,
         (processBatch rs dE dI primary fl xs).2
           ++ (processBatch rs dE dI primary fl ys).2) := by
  induction xs with
  | nil => simp [processBatch]
  | cons r rest ih =>
    cases h : processRecord rs dE dI primary fl r with
    | ok e => simp [processBatch, h, ih]
    | error err => simp [processBatch, h, ih]

/-- Claim C1: for every raw transaction with a valid date and amount, the
built Ledger Entry has exactly two postings — the primary posting carrying
the native signed amount and the category posting its exact negation, both
in the transaction's currency — so the posting amounts in that currency sum
to exactly zero, in exact arithmetic. -/
theorem entry_balance (r : RawRecord) (d : Nat) (a : Rat)
    (hd : r.date = some d) (ha : r.amount = some a)
    (primary category : String) (fl : Char) :
    ∃ t, validate r = Except.ok t ∧ t.amount = a ∧ t.currency = r.currency ∧
      (buildEntry t primary category fl).postings
        = [⟨primary, a, r.currency⟩, ⟨category, -a, r.currency⟩] ∧
      sumPostings r.currency (buildEntry t primary category fl).postings = 0 := by
  refine ⟨⟨d, r.narration, a, r.currency, r.counterparty, r.payee⟩, ?_, rfl, rfl, rfl, ?_⟩
  · simp [validate, hd, ha]
  · simp [sumPostings, buildEntry]

/-- Witness for C1 at a concrete record with amount `-99 NOK`. -/
theorem entry_balance_witness :
    ∃ t, validate sampleTxnRecord = Except.ok t ∧ t.amount = -99 ∧
      t.currency = sampleTxnRecord.currency ∧
      (buildEntry t "Assets:Bank:SpareBank1:Checking" "Expenses:Groceries" '*').postings
        = [⟨"Assets:Bank:SpareBank1:Checking", -99, sampleTxnRecord.currency⟩,
           ⟨"Expenses:Groceries", -(-99), sampleTxnRecord.currency⟩] ∧
      sumPostings sampleTxnRecord.currency
        (buildEntry t "Assets:Bank:SpareBank1:Checking" "Expenses:Groceries" '*').postings
        = 0 :=
  entry_balance sampleTxnRecord 20250115 (-99) rfl rfl
    "Assets:Bank:SpareBank1:Checking" "Expenses:Groceries" '*'

/-- Claim C2: rule evaluation proceeds in insertion order and stops at the
first match — with P1 the earliest matching Pattern and P2 a later matching
one, `resolve` returns P1's target account, never P2's. -/
theorem first_match_priority (t : Txn) (d : String)
    (pre mid post : List CompiledPattern) (p1 p2 : CompiledPattern)
    (hpre : ∀ q ∈ pre, condMatches q.cond t = false)
    (h1 : condMatches p1.cond t = true)
    (_h2 : condMatches p2.cond t = true) :
    resolve t (pre ++ p1 :: (mid ++ p2 :: post)) d = p1.target_account ∧
    (p1.target_account ≠ p2.target_account →
      resolve t (pre ++ p1 :: (mid ++ p2 :: post)) d ≠ p2.target_account) := by
  have hmain : resolve t (pre ++ p1 :: (mid ++ p2 :: post)) d = p1.target_account := by
    rw [resolve_append_no_match t pre _ d hpre]
    simp [resolve, h1]
  exact ⟨hmain, fun hne => by rw [hmain]; exact hne⟩

/-- Witness for C2: the `KIWI` Pattern beats a later Pattern also matching
`KIWI MAT OSLO`. -/
theorem first_match_priority_witness :
    resolve kiwiTxn ([] ++ kiwiPat :: ([] ++ osloPat :: [])) "Expenses:Uncategorized"
        = kiwiPat.target_account ∧
    (kiwiPat.target_account ≠ osloPat.target_account →
      resolve kiwiTxn ([] ++ kiwiPat :: ([] ++ osloPat :: [])) "Expenses:Uncategorized"
        ≠ osloPat.target_account) :=
  first_match_priority kiwiTxn "Expenses:Uncategorized" [] [] [] kiwiPat osloPat
    (by simp) (by decide) (by decide)

/-- Claim C3: when no Pattern matches, `resolve` returns exactly the
configured default; sign-aware deposit sources use the expense default for
a negative native amount and the income default for a non-negative one
(zero included), while credit-card sources use a single default. -/
theorem fallback_default (t : Txn) (rs : List CompiledPattern)
    (defaultExpense defaultIncome defaultAccount : String)
    (h : ∀ p ∈ rs, condMatches p.cond t = false) :
    resolveDeposit t rs defaultExpense defaultIncome
        = (if t.amount < 0 then defaultExpense else defaultIncome) ∧
    (t.amount < 0 → resolveDeposit t rs defaultExpense defaultIncome = defaultExpense) ∧
    (0 ≤ t.amount → resolveDeposit t rs defaultExpense defaultIncome = defaultIncome) ∧
    resolveCard t rs defaultAccount = defaultAccount := by
  have hd : resolveDeposit t rs defaultExpense defaultIncome
      = (if t.amount < 0 then defaultExpense else defaultIncome) :=
    resolve_of_no_match t rs _ h
  refine ⟨hd, fun hneg => ?_, fun hpos => ?_, resolve_of_no_match t rs _ h⟩
  · rw [hd, if_pos hneg]
  · rw [hd, if_neg (not_lt.mpr hpos)]

/-- Witness for C3: `UNKNOWN MERCHANT` with amount `-99` falls back to the
configured defaults against the `KIWI` Rule Set. -/
theorem fallback_default_witness :
    resolveDeposit unknownTxn [kiwiPat] "Expenses:Uncategorized" "Income:Other"
        = (if unknownTxn.amount < 0 then "Expenses:Uncategorized" else "Income:Other") ∧
    (unknownTxn.amount < 0 →
      resolveDeposit unknownTxn [kiwiPat] "Expenses:Uncategorized" "Income:Other"
        = "Expenses:Uncategorized") ∧
    (0 ≤ unknownTxn.amount →
      resolveDeposit unknownTxn [kiwiPat] "Expenses:Uncategorized" "Income:Other"
        = "Income:Other") ∧
    resolveCard unknownTxn [kiwiPat] "Expenses:Uncategorized" = "Expenses:Uncategorized" :=
  fallback_default unknownTxn [kiwiPat] "Expenses:Uncategorized" "Income:Other"
    "Expenses:Uncategorized" (by decide)

/-- Claim C4: a counterparty-account Pattern matches exactly when the
transaction's counterparty account is present and string-equal to its
value; on a match the target account is returned regardless of the
narration; and each entry of the counterparty mapping table becomes exactly
one such Pattern. -/
theorem counterparty_exact_match :
    (∀ (v : String) (t : Txn),
        condMatches (CompiledCond.counterparty v) t = true ↔ t.counterparty = some v) ∧
    (∀ (v tgt dflt narr : String) (date : Nat) (amt : Rat) (cur : String)
        (payee : Option String),
        resolve ⟨date, narr, amt, cur, some v, payee⟩
          [⟨tgt, CompiledCond.counterparty v⟩] dflt = tgt) ∧
    (∀ (m : List (String × String)) (i : Nat) (h : i < m.length),
        (counterpartyPatterns m).length = m.length ∧
        (counterpartyPatterns m)[i]?
          = some ⟨(m.get ⟨i, h⟩).2, CompiledCond.counterparty (m.get ⟨i, h⟩).1⟩) ∧
    counterpartyPatterns sparebank1Config.other_account_mappings
      = [⟨"Assets:Bank:SpareBank1:Savings", CompiledCond.counterparty "11112222333"⟩,
         ⟨"Income:Salary", CompiledCond.counterparty "56712345678"⟩] := by
  refine ⟨?_, ?_, ?_, rfl⟩
  · intro v t
    simp [condMatches]
  · intro v tgt dflt narr date amt cur payee
    simp [resolve, condMatches]
  · intro m i h
    exact ⟨by simp [counterpartyPatterns],
      by simp [counterpartyPatterns, List.getElem?_eq_getElem h]⟩

/-- Witness for C4: the first entry of a one-row mapping table becomes the
corresponding counterparty Pattern. -/
theorem counterparty_exact_match_witness :
    (counterpartyPatterns [("11112222333", "Assets:Bank:Savings")]).length
        = [("11112222333", "Assets:Bank:Savings")].length ∧
    (counterpartyPatterns [("11112222333", "Assets:Bank:Savings")])[0]?
      = some ⟨"Assets:Bank:Savings", CompiledCond.counterparty "11112222333"⟩ :=
  counterparty_exact_match.2.2.1 [("11112222333", "Assets:Bank:Savings")] 0
    (by decide)

/-- Claim C5: a narration-substring Pattern matches exactly when its value
occurs as a contiguous substring of the narration; with `case_insensitive`
set, `STARBUCKS` matches `starbucks coffee`, `STARBUCKS COFFEE` and
`StarBucks` identically, while the case-sensitive Pattern rejects
`starbucks coffee`. -/
theorem substring_case_matching :
    (∀ (v n : List Char), isSubstr v n = true ↔ ∃ p s, p ++ v ++ s = n) ∧
    condMatches (CompiledCond.substr "STARBUCKS" true)
      (txnWithNarration "starbucks coffee") = true ∧
    condMatches (CompiledCond.substr "STARBUCKS" true)
      (txnWithNarration "STARBUCKS COFFEE") = true ∧
    condMatches (CompiledCond.substr "STARBUCKS" true)
      (txnWithNarration "StarBucks") = true ∧
    condMatches (CompiledCond.substr "STARBUCKS" false)
      (txnWithNarration "starbucks coffee") = false :=
  ⟨isSubstr_iff, by decide, by decide, by decide, by decide⟩

/-- Claim C6: a narration-regex Pattern matches exactly when the compiled
regular expression finds a match anywhere in the narration; the compiled
`REMA\s*1000` matches `REMA 1000`, `REMA1000` and `REMA   1000`. -/
theorem regex_match_anywhere :
    (∀ (r : Regex) (t : Txn),
        condMatches (CompiledCond.regex r) t = Regex.search r t.narration.data) ∧
    (∀ (p : PatternSpec) (r : Regex),
        p.match_kind = MatchKind.narrationRegex →
        compileRegex p.match_value = some r →
        compilePattern p = Except.ok ⟨p.target_account, CompiledCond.regex r⟩) ∧
    compileRegex "REMA\\s*1000" = some remaRegex ∧
    remaRegex.search "REMA 1000".data = true ∧
    remaRegex.search "REMA1000".data = true ∧
    remaRegex.search "REMA   1000".data = true := by
  refine ⟨fun r t => rfl, ?_, rfl, by decide, by decide, by decide⟩
  intro p r hk hc
  simp [compilePattern, hk, hc]

/-- Witness for C6: compiling the configuration's regex Pattern yields the
compiled `REMA\s*1000`. -/
theorem regex_match_anywhere_witness :
    compilePattern ⟨"Expenses:Groceries", MatchKind.narrationRegex, "REMA\\s*1000", false⟩
      = Except.ok ⟨"Expenses:Groceries", CompiledCond.regex remaRegex⟩ :=
  regex_match_anywhere.2.1
    ⟨"Expenses:Groceries", MatchKind.narrationRegex, "REMA\\s*1000", false⟩
    remaRegex rfl rfl

/-- Claim C7: a malformed regular expression fails Rule Set construction
(fail fast, before any transaction is processed) and is the only source of
configuration errors; resolution over a successfully constructed Rule Set
is total and never raises, returning a Pattern's target or the default. -/
theorem config_error_fail_fast (specs : List PatternSpec) :
    ((∃ e, buildRuleSet specs = Except.error e) ↔
      ∃ p ∈ specs, p.match_kind = MatchKind.narrationRegex ∧
        compileRegex p.match_value = none) ∧
    (∀ rs, buildRuleSet specs = Except.ok rs → ∀ (t : Txn) (d : String),
      resolve t rs d = d ∨ ∃ p ∈ rs, resolve t rs d = p.target_account) :=
  ⟨buildRuleSet_error_iff specs, fun rs _ t d => resolve_mem_or_default t rs d⟩

/-- Witness for C7: the invalid regex `*` fails construction, and a
constructed empty Rule Set resolves to the default. -/
theorem config_error_fail_fast_witness :
    (∃ e, buildRuleSet [badRegexSpec] = Except.error e) ∧
    (resolve kiwiTxn [] "Expenses:Uncategorized" = "Expenses:Uncategorized" ∨
      ∃ p ∈ ([] : List CompiledPattern),
        resolve kiwiTxn [] "Expenses:Uncategorized" = p.target_account) :=
  ⟨(config_error_fail_fast [badRegexSpec]).1.mpr
      ⟨badRegexSpec, List.mem_cons_self _ _, rfl, rfl⟩,
    (config_error_fail_fast []).2 [] rfl kiwiTxn "Expenses:Uncategorized"⟩

/-- Claim C8: a record missing a required field fails only its own entry
construction — all sibling records of the batch are still resolved and
emitted unchanged, and successes and failures are collected in independent
lists. -/
theorem batch_error_isolation (rs : List CompiledPattern)
    (dE dI primary : String) (fl : Char)
    (xs ys : List RawRecord) (bad : RawRecord)
    (h : bad.date = none ∨ bad.amount = none) :
    ∃ err, processBatch rs dE dI primary fl (xs ++ bad :: ys)
      = ((processBatch rs dE dI primary fl xs).1
           ++ (processBatch rs dE dI primary fl ys).1,
         (processBatch rs dE dI primary fl xs).2
           ++ (bad, err) :: (processBatch rs dE dI primary fl ys).2) := by
  have herr : ∃ err, processRecord rs dE dI primary fl bad = Except.error err := by
    rcases h with h | h
    · exact ⟨BuildError.missingDate, by simp [processRecord, validate, h]⟩
    · cases hd : bad.date with
      | none => exact ⟨BuildError.missingDate, by simp [processRecord, validate, hd]⟩
      | some d => exact ⟨BuildError.missingAmount, by simp [processRecord, validate, hd, h]⟩
  obtain ⟨err, herr⟩ := herr
  refine ⟨err, ?_⟩
  rw [processBatch_append]
  simp [processBatch, herr]

/-- Witness for C8 on a three-record batch whose middle record misses its
date. -/
theorem batch_error_isolation_witness :
    ∃ err, processBatch [] "Expenses:Uncategorized" "Income:Other"
        "Assets:Bank:SpareBank1:Checking" '*' ([goodRec1] ++ badRec :: [goodRec2])
      = ((processBatch [] "Expenses:Uncategorized" "Income:Other"
            "Assets:Bank:SpareBank1:Checking" '*' [goodRec1]).1
           ++ (processBatch [] "Expenses:Uncategorized" "Income:Other"
            "Assets:Bank:SpareBank1:Checking" '*' [goodRec2]).1,
         (processBatch [] "Expenses:Uncategorized" "Income:Other"
            "Assets:Bank:SpareBank1:Checking" '*' [goodRec1]).2
           ++ (badRec, err) :: (processBatch [] "Expenses:Uncategorized" "Income:Other"
            "Assets:Bank:SpareBank1:Checking" '*' [goodRec2]).2) :=
  batch_error_isolation [] "Expenses:Uncategorized" "Income:Other"
    "Assets:Bank:SpareBank1:Checking" '*' [goodRec1] [goodRec2] badRec (Or.inl rfl)

/-- Claim C9: every call of `get_importers` returns a freshly built list of
exactly three importers in a fixed order — SpareBank 1 deposit account, DNB
Mastercard, American Express — independent of any state between calls. -/
theorem importers_fixed_list :
    (getImporters ()).length = 3 ∧
    (getImporters ())[0]? = some (Importer.depositAccount sparebank1Config) ∧
    (getImporters ())[1]? = some (Importer.dnbMastercard dnbConfig) ∧
    (getImporters ())[2]? = some (Importer.amex amexConfig) ∧
    ∀ u v : Unit, getImporters u = getImporters v :=
  ⟨rfl, rfl, rfl, rfl, fun _ _ => rfl⟩

/-- Claim C10: the DNB configuration sets `skip_balance_forward`, so its
extraction excludes exactly the balance-forward records, while the
SpareBank 1 and Amex importers carry no such flag and extract every
record. -/
theorem dnb_excludes_balance_forward :
    dnbConfig.skip_balance_forward = true ∧
    (∀ (records : List RawRecord) (r : RawRecord),
        r ∈ importerExtract (Importer.dnbMastercard dnbConfig) records →
        r.balanceForward = false) ∧
    (∀ records, importerExtract (Importer.depositAccount sparebank1Config) records
        = records) ∧
    (∀ records, importerExtract (Importer.amex amexConfig) records = records) := by
  refine ⟨rfl, ?_, fun records => rfl, fun records => rfl⟩
  intro records r hr
  have hmem : r ∈ records.filter (fun q => !q.balanceForward) := by
    simpa [importerExtract, extractRecords, importerSkipsBalanceForward,
      dnbConfig] using hr
  have hb := (List.mem_filter.mp hmem).2
  simpa using hb

/-- Witness for C10: a surviving record of a DNB extraction is not a
balance-forward record. -/
theorem dnb_excludes_balance_forward_witness :
    normalRec.balanceForward = false :=
  dnb_excludes_balance_forward.2.1 [bfRec, normalRec] normalRec (by decide)

end Beancounters
